import Mathlib

/-!
Verification of the manager subsystem of pangolin-windows: the update
scheduler with jittered backoff (`jitterSleep`, `checkForUpdates`), the
Quit operation on the session registry, the per-connection dispatch loop
(`ServeConn`), and the notification fan-out (`notifyAll` and its
`IPCServerNotify*` wrappers).  Go durations are nanosecond counts
(`time.Duration`), modelled as `Nat`.
-/

namespace Pangolin

/-- `time.Millisecond` in nanoseconds. -/
def millisecond : Nat := 1000000

/-- `time.Second` in nanoseconds. -/
def second : Nat := 1000 * millisecond

/-- `time.Minute` in nanoseconds. -/
def minute : Nat := 60 * second

/-- `time.Hour` in nanoseconds. -/
def hour : Nat := 60 * minute

/-- `runtime.fastrandn n` (linked via go:linkname; its body is outside this
repository) returns a value in `[0, n)` derived from the RNG state, and `0`
when `n = 0`.  The RNG state is abstracted as the extra argument `r`; the
reduction into `[0, n)` is modelled as `r % n`, which realises exactly the
guaranteed range: every value in `[0, n)` is reached by some `r` and no
other value is ever produced. -/
def fastrandn (r n : Nat) : Nat := if n = 0 then 0 else r % n

/-- Duration slept by `jitterSleep(min, max)` in part_002 line 29-31:
`min + time.Millisecond * fastrandn(uint32((max-min+1)/time.Millisecond))`.
`r` is the abstracted RNG draw; the `uint32` conversion is the `% 2^32`. -/
def jitterSleep (r mn mx : Nat) : Nat :=
  mn + millisecond * fastrandn r (((mx - mn + 1) / millisecond) % 4294967296)

/-- `UpdateState` enum of part_002 lines 19-25. -/
inductive UpdateState where
  | UpdateStateUnknown
  | UpdateStateFoundUpdate
  | UpdateStateUpdatesDisabledUnofficialBuild
deriving DecidableEq, Repr

/-- One `ManagerService` (part_002 lines 104-108): the event-stream handle
(`none` models a nil `*os.File`) and the windows token (`0` = unprivileged).
`id` models the pointer identity used as the key of the `managerServices`
map. -/
structure ManagerService where
  id : Nat
  events : Option Nat
  elevatedToken : Nat
deriving DecidableEq, Repr

/-- The package-level mutable state of part_002 lines 97-102 plus the
`updateState` global of line 27: the `managerServices` registry, the
`haveQuit` uint32 flag, and the number of values sent on
`quitManagersChan` (capacity-1 channel, written at most once thanks to the
compare-and-swap). -/
structure Globals where
  managerServices : List ManagerService
  haveQuit : Nat
  quitSignals : Nat
  updateState : UpdateState
deriving DecidableEq, Repr

/-- The error value `windows.ERROR_ACCESS_DENIED` returned by `Quit`. -/
inductive QuitErr where
  | accessDenied
deriving DecidableEq, Repr

/-- The atomic actions `Quit` performs, in program order, used to state
where the registry removal sits relative to the flag's transition. -/
inductive QuitAction where
  | casQuitFlag
  | clearOwnEvents
  | removeSelfFromRegistry
  | sendQuitSignal
deriving DecidableEq, Repr

/-- Result of one `Quit` call: the two return values, the trace of atomic
actions performed, and the state after the call. -/
structure QuitResult where
  alreadyQuit : Bool
  err : Option QuitErr
  trace : List QuitAction
  state : Globals
deriving DecidableEq, Repr

/-- `(*ManagerService).Quit` (part_002 lines 110-133), sequentialised: the
permission check, the compare-and-swap on `haveQuit`, then — only on the
winning call — clearing the caller's own `events` handle, deleting the
caller from `managerServices`, and sending on `quitManagersChan`.
`stopTunnelsOnQuit` only triggers a log line (tunnel management is a
no-op placeholder). -/
def ManagerService.Quit (s : ManagerService) (stopTunnelsOnQuit : Bool)
    (g : Globals) : QuitResult :=
  if s.elevatedToken = 0 then
    ⟨false, some QuitErr.accessDenied, [], g⟩
  else if g.haveQuit ≠ 0 then
    ⟨true, none, [], g⟩
  else
    ⟨false, none,
      [QuitAction.casQuitFlag, QuitAction.clearOwnEvents,
       QuitAction.removeSelfFromRegistry, QuitAction.sendQuitSignal],
      { g with
          haveQuit := 1,
          managerServices :=
            ((g.managerServices.map fun t =>
                if t.id = s.id then { t with events := none } else t).filter
              fun t => t.id ≠ s.id),
          quitSignals := g.quitSignals + 1 }⟩

/-- Sequential execution of a list of `Quit` calls (session, stopTunnels):
returns the list of `(alreadyQuit, err)` results and the final state. -/
def runQuits : List (ManagerService × Bool) → Globals →
    List (Bool × Option QuitErr) × Globals
  | [], g => ([], g)
  | (s, b) :: rest, g =>
    let q := s.Quit b g
    let out := runQuits rest q.state
    ((q.alreadyQuit, q.err) :: out.1, out.2)

/-- `s.UpdateState()` (part_002 lines 135-137): reads the global
`updateState` with no side effect. -/
def ManagerService.UpdateStateOf (_s : ManagerService) (g : Globals) :
    UpdateState := g.updateState

/-- The `MethodType` discriminant decoded by `ServeConn`.  Its constant
values live outside the provided sources; `UnknownMethodType` stands for
every value other than the three dispatched ones (the `default` case). -/
inductive MethodType where
  | QuitMethodType
  | UpdateStateMethodType
  | UpdateMethodType
  | UnknownMethodType
deriving DecidableEq, Repr

/-- One gob value available on the request stream: a `MethodType` tag or a
`bool` argument.  Decoding a value of the wrong kind is a gob type
mismatch, hence a decode error; end of list is EOF. -/
inductive WireIn where
  | tag (m : MethodType)
  | boolVal (b : Bool)
deriving DecidableEq, Repr

/-- What `ServeConn` did for one decoded method tag: how many complete
responses it encoded for that request, and whether handling the request
ended the loop (closing the connection). -/
structure ServeStep where
  method : MethodType
  responses : Nat
  closed : Bool
deriving DecidableEq, Repr

/-- Pop the outcome of the next `encoder.Encode` call from the scripted
writer; an exhausted script means the write succeeds. -/
def takeW : List Bool → Bool × List Bool
  | [] => (true, [])
  | b :: t => (b, t)

/-- `(*ManagerService).ServeConn` (part_002 lines 156-193) as a trace
function: the request stream is the list of decoded gob values, `ws`
scripts the success of each successive `Encode` on the response writer.
Per the source: any decode error returns; `Quit` decodes a bool then
encodes `alreadyQuit` and the error string (two encodes, one response);
`UpdateState` encodes one value; `Update` calls `s.Update()` — which only
checks the token and spawns the progress relay — and encodes nothing; an
unrecognised tag returns.  A response counts in `responses` only when all
its encodes succeed; a failed encode returns with `closed = true`. -/
def ServeConn (s : ManagerService) :
    Globals → List WireIn → List Bool → List ServeStep × Globals
  | g, [], _ => ([], g)
  | g, WireIn.boolVal _ :: _, _ => ([], g)
  | g, WireIn.tag MethodType.QuitMethodType :: WireIn.boolVal b :: rest, ws =>
    let q := s.Quit b g
    let w1 := takeW ws
    if w1.1 then
      let w2 := takeW w1.2
      if w2.1 then
        let out := ServeConn s q.state rest w2.2
        (⟨MethodType.QuitMethodType, 1, false⟩ :: out.1, out.2)
      else ([⟨MethodType.QuitMethodType, 0, true⟩], q.state)
    else ([⟨MethodType.QuitMethodType, 0, true⟩], q.state)
  | g, WireIn.tag MethodType.QuitMethodType :: WireIn.tag _ :: _, _ =>
    ([⟨MethodType.QuitMethodType, 0, true⟩], g)
  | g, [WireIn.tag MethodType.QuitMethodType], _ =>
    ([⟨MethodType.QuitMethodType, 0, true⟩], g)
  | g, WireIn.tag MethodType.UpdateStateMethodType :: rest, ws =>
    let w1 := takeW ws
    if w1.1 then
      let out := ServeConn s g rest w1.2
      (⟨MethodType.UpdateStateMethodType, 1, false⟩ :: out.1, out.2)
    else ([⟨MethodType.UpdateStateMethodType, 0, true⟩], g)
  | g, WireIn.tag MethodType.UpdateMethodType :: rest, ws =>
    let out := ServeConn s g rest ws
    (⟨MethodType.UpdateMethodType, 0, false⟩ :: out.1, out.2)
  | g, WireIn.tag MethodType.UnknownMethodType :: _, _ =>
    ([⟨MethodType.UnknownMethodType, 0, true⟩], g)

/-- The `NotificationType` discriminants used by part_002 lines 257-268
(their constant values live outside the provided sources). -/
inductive NotificationType where
  | UpdateFoundNotificationType
  | UpdateProgressNotificationType
  | ManagerStoppingNotificationType
deriving DecidableEq, Repr

/-- `updater.DownloadProgress` as relayed by `IPCServerNotifyUpdateProgress`
(fields per the Encode calls of part_002 line 262). -/
structure DownloadProgress where
  Activity : String
  BytesDownloaded : Nat
  BytesTotal : Nat
  ErrorText : Option String
  Complete : Bool

/-- `notifyAll` (part_002 lines 215-248), returning the set of sessions an
event write is attempted on: the empty-registry early return, then for
each registered service, skip it when `elevatedToken == 0 && adminOnly`;
the spawned writer then writes only when the `events` handle is non-nil.
Gob-encoding the tag and payload into the in-memory buffer cannot fail for
the fixed payload types, so the encode-error early returns are never
taken. -/
def notifyAll (registry : List ManagerService)
    (_notificationType : NotificationType) (adminOnly : Bool) :
    List ManagerService :=
  if registry.length = 0 then []
  else registry.filter fun m =>
    !(m.elevatedToken == 0 && adminOnly) && m.events.isSome

/-- `IPCServerNotifyUpdateFound` (part_002 lines 257-259): broadcast with
`adminOnly = false`. -/
def IPCServerNotifyUpdateFound (registry : List ManagerService)
    (_state : UpdateState) : List ManagerService :=
  notifyAll registry NotificationType.UpdateFoundNotificationType false

/-- `IPCServerNotifyUpdateProgress` (part_002 lines 261-263): broadcast
with `adminOnly = true`. -/
def IPCServerNotifyUpdateProgress (registry : List ManagerService)
    (_dp : DownloadProgress) : List ManagerService :=
  notifyAll registry NotificationType.UpdateProgressNotificationType true

/-- `IPCServerNotifyManagerStopping` (part_002 lines 265-268): broadcast
with `adminOnly = false` (then sleeps 200ms, irrelevant to delivery). -/
def IPCServerNotifyManagerStopping (registry : List ManagerService) :
    List ManagerService :=
  notifyAll registry NotificationType.ManagerStoppingNotificationType false

/-- Outcome of one `updater.CheckForUpdate()` call: `(update, err)` with
`err == nil && update != nil` (found), `err != nil` (errOut), or
`err == nil && update == nil` (noUpdate). -/
inductive CheckOutcome where
  | noUpdate
  | found
  | errOut
deriving DecidableEq, Repr

/-- Observable events of the scheduler loop: a call to
`updater.CheckForUpdate()`, a publication via
`IPCServerNotifyUpdateFound`, or a sleep of the given duration (ns). -/
inductive SchedEvent where
  | check (o : CheckOutcome)
  | publish (st : UpdateState)
  | sleep (d : Nat)
deriving DecidableEq, Repr

/-- The `for` loop of `checkForUpdates` (part_002 lines 56-75) run over a
finite script of check outcomes; each script entry also carries the RNG
draw consumed by any `jitterSleep` of that iteration.  Arguments mirror
the loop state `noError, didNotify := true, false` and the global
`updateState`; the result is the event trace of the scripted prefix of
the (infinite) loop and the final `updateState`. -/
def updateLoop : Bool → Bool → UpdateState → List (CheckOutcome × Nat) →
    List SchedEvent × UpdateState
  | _, _, st, [] => ([], st)
  | noError, didNotify, st, (o, r) :: script =>
    if o = CheckOutcome.found ∧ didNotify = false then
      let out := updateLoop noError true UpdateState.UpdateStateFoundUpdate script
      (SchedEvent.check o :: SchedEvent.publish UpdateState.UpdateStateFoundUpdate
        :: out.1, out.2)
    else if o = CheckOutcome.errOut ∧ didNotify = false then
      if noError = true then
        let out := updateLoop false didNotify st script
        (SchedEvent.check o
          :: SchedEvent.sleep (jitterSleep r (4 * minute) (6 * minute))
          :: out.1, out.2)
      else
        let out := updateLoop noError didNotify st script
        (SchedEvent.check o
          :: SchedEvent.sleep (jitterSleep r (25 * minute) (30 * minute))
          :: out.1, out.2)
    else
      let out := updateLoop noError didNotify st script
      (SchedEvent.check o
        :: SchedEvent.sleep (jitterSleep r (hour - 3 * minute) (hour + 3 * minute))
        :: out.1, out.2)

/-- `checkForUpdates` (part_002 lines 33-76).  `isOfficial` models
`version.IsRunningOfficialVersion()` and `devMode` the
`PANGOLIN_ALLOW_DEV_UPDATES=1` environment override (both outside the
provided sources); `startedAtBoot` models `services.StartedAtBoot()`,
`bootRand` the RNG draw of the boot-time jitter sleep.  On an unofficial
build without the override the function sets the disabled state, publishes
it once and returns, never entering the loop. -/
def checkForUpdates (isOfficial devMode startedAtBoot : Bool)
    (bootRand : Nat) (script : List (CheckOutcome × Nat)) :
    List SchedEvent × UpdateState :=
  if !isOfficial && !devMode then
    ([SchedEvent.publish UpdateState.UpdateStateUpdatesDisabledUnofficialBuild],
      UpdateState.UpdateStateUpdatesDisabledUnofficialBuild)
  else
    let bootEvents :=
      if startedAtBoot then
        [SchedEvent.sleep (jitterSleep bootRand (2 * minute) (5 * minute))]
      else []
    let out := updateLoop true false UpdateState.UpdateStateUnknown script
    (bootEvents ++ out.1, out.2)

/-- Whether a scheduler event is a publication. -/
def SchedEvent.isPublish : SchedEvent → Bool
  | SchedEvent.publish _ => true
  | _ => false

/-- Whether a scheduler event is an update check. -/
def SchedEvent.isCheck : SchedEvent → Bool
  | SchedEvent.check _ => true
  | _ => false

/-- Fixture: an elevated session (nonzero token, open event handle). -/
def elevatedSvc : ManagerService := ⟨1, some 10, 7⟩

/-- Fixture: an unprivileged session (zero token, open event handle). -/
def plainSvc : ManagerService := ⟨2, some 11, 0⟩

/-- Fixture: initial globals with a mixed registry and the quit flag down. -/
def gTwo : Globals := ⟨[elevatedSvc, plainSvc], 0, 0, UpdateState.UpdateStateUnknown⟩

/-- Fixture: a download-progress record. -/
def dpSample : DownloadProgress := ⟨ "", 0, 0, none, false⟩

/-- The sleep of `jitterSleep` never lies below `min`. -/
theorem jitterSleep_ge (r mn mx : Nat) : mn ≤ jitterSleep r mn mx :=
  Nat.le_add_right _ _

/-- The sleep of `jitterSleep` never exceeds `max` (for `min ≤ max`). -/
theorem jitterSleep_le (r mn mx : Nat) (h : mn ≤ mx) :
    jitterSleep r mn mx ≤ mx := by
  unfold jitterSleep fastrandn
  set n := ((mx - mn + 1) / millisecond) % 4294967296 with hndef
  by_cases h0 : n = 0
  · simp [h0]; omega
  · rw [if_neg h0]
    have hmod : r % n < n := Nat.mod_lt _ (Nat.pos_of_ne_zero h0)
    have h3 : millisecond * (r % n + 1) ≤ millisecond * n :=
      Nat.mul_le_mul_left _ hmod
    have h1 : n ≤ (mx - mn + 1) / millisecond := by
      rw [hndef]; exact Nat.mod_le _ _
    have h4 : millisecond * n ≤ millisecond * ((mx - mn + 1) / millisecond) :=
      Nat.mul_le_mul_left _ h1
    have h2 : millisecond * ((mx - mn + 1) / millisecond) ≤ mx - mn + 1 := by
      rw [Nat.mul_comm]; exact Nat.div_mul_le_self _ _
    have hms : millisecond = 1000000 := rfl
    generalize r % n = t at hmod h3
    rw [hms] at h3 h4 h2 ⊢
    omega

/-- Every draw below the truncated millisecond count is realised exactly,
so every millisecond-multiple offset of `min` below that count is an
attainable sleep duration. -/
theorem jitterSleep_attain (k mn mx : Nat)
    (hk : k < ((mx - mn + 1) / millisecond) % 4294967296) :
    jitterSleep k mn mx = mn + millisecond * k := by
  unfold jitterSleep fastrandn
  rw [if_neg (by omega), Nat.mod_eq_of_lt hk]

/-- Once `didNotify` is true, the loop never publishes again. -/
theorem updateLoop_notified_no_publish :
    ∀ (script : List (CheckOutcome × Nat)) (noError : Bool) (st : UpdateState),
      ((updateLoop noError true st script).1.countP SchedEvent.isPublish) = 0
  | [], _, _ => rfl
  | (o, r) :: script, noError, st => by
    have ih := updateLoop_notified_no_publish script noError st
    simp [updateLoop, List.countP_cons, SchedEvent.isPublish, ih]

/-- A replicated `(true, none)` result list contains no `alreadyQuit=false`
entry. -/
theorem countP_replicate_false (n : Nat) :
    ((List.replicate n ((true : Bool), (none : Option QuitErr))).countP
      fun x => x.1 == false) = 0 := by
  induction n with
  | zero => rfl
  | succ n ih => simp [List.replicate, List.countP_cons, ih]

/-- After the quit flag is up, every further elevated `Quit` returns
`(true, nil)` and leaves the state untouched. -/
theorem runQuits_alreadyQuit :
    ∀ (calls : List (ManagerService × Bool)) (g : Globals),
      g.haveQuit ≠ 0 → (∀ c ∈ calls, c.1.elevatedToken ≠ 0) →
      runQuits calls g = (List.replicate calls.length (true, none), g)
  | [], g, _, _ => rfl
  | (s, b) :: calls, g, hq, helev => by
    have hs : s.elevatedToken ≠ 0 := helev (s, b) (by simp)
    have ih := runQuits_alreadyQuit calls g hq
      (fun c hc => helev c (List.mem_cons_of_mem _ hc))
    simp [runQuits, ManagerService.Quit, hs, hq, ih, List.replicate]

/-- Claim C9, as stated, is false: the duration of `jitterSleep(min, max)`
is `min` plus a whole number of milliseconds strictly below
`(max-min+1)/1ms`, so for the code's own backoff range `[4, 6]` minutes
the value `max = 6` minutes is attained by no RNG draw — the range is not
inclusive of `max`. -/
theorem C9_counterexample :
    ¬ ∃ r, jitterSleep r (4 * minute) (6 * minute) = 6 * minute := by
  rintro ⟨r, hr⟩
  unfold jitterSleep fastrandn millisecond minute second millisecond at hr
  norm_num at hr
  omega

/-- Claim C9 amended: for `min ≤ max` the duration of `jitterSleep` lies
in `[min, max]` and is exactly `min + k·1ms` for the draw `k`, so every
millisecond-multiple offset below the (uint32-truncated) count
`(max-min+1)/1ms` is attainable; `max` itself is not attainable for the
program's millisecond-aligned ranges, e.g. the `[4, 6]`-minute backoff. -/
theorem C9_amended (r mn mx : Nat) (h : mn ≤ mx) :
    mn ≤ jitterSleep r mn mx ∧ jitterSleep r mn mx ≤ mx ∧
    (∀ k, k < ((mx - mn + 1) / millisecond) % 4294967296 →
      jitterSleep k mn mx = mn + millisecond * k) ∧
    (∀ rr, jitterSleep rr (4 * minute) (6 * minute) < 6 * minute) := by
  refine ⟨jitterSleep_ge r mn mx, jitterSleep_le r mn mx h,
    fun k hk => jitterSleep_attain k mn mx hk, fun rr => ?_⟩
  unfold jitterSleep fastrandn millisecond minute second millisecond
  norm_num
  omega

/-- Claim C9 witness: the amended statement instantiated at the
`[4, 6]`-minute range and the draw `5`. -/
theorem C9_witness :
    4 * minute ≤ 6 * minute ∧
    (4 * minute ≤ jitterSleep 5 (4 * minute) (6 * minute) ∧
      jitterSleep 5 (4 * minute) (6 * minute) ≤ 6 * minute ∧
      (∀ k, k < ((6 * minute - 4 * minute + 1) / millisecond) % 4294967296 →
        jitterSleep k (4 * minute) (6 * minute) = 4 * minute + millisecond * k) ∧
      (∀ rr, jitterSleep rr (4 * minute) (6 * minute) < 6 * minute)) :=
  ⟨by decide, C9_amended 5 (4 * minute) (6 * minute) (by decide)⟩

/-- Claim C5, as stated, is false: the `noError` flag is never reset on a
successful check, so for the outcomes `[error, noUpdate, error]` the third
check's error — the first error since the last success — sleeps in the
`[25, 30]`-minute band (here exactly 25 minutes for draw 0), not in
`[4, 6]` minutes as the claim requires. -/
theorem C5_counterexample :
    (updateLoop true false UpdateState.UpdateStateUnknown
        [(CheckOutcome.errOut, 0), (CheckOutcome.noUpdate, 0),
         (CheckOutcome.errOut, 0)]).1 =
      [SchedEvent.check CheckOutcome.errOut, SchedEvent.sleep (4 * minute),
       SchedEvent.check CheckOutcome.noUpdate, SchedEvent.sleep (57 * minute),
       SchedEvent.check CheckOutcome.errOut, SchedEvent.sleep (25 * minute)] ∧
    ¬ 25 * minute ≤ 6 * minute := by decide

/-- Claim C5 amended: the first error of the loop instance (not "since the
last success" — the flag is never reset) sleeps a jittered duration in
`[4, 6]` minutes and flips the had-an-error flag; every later
not-yet-notified error sleeps in `[25, 30]` minutes; for the scripted
outcomes `[error, error, error, found]` the three sleeps fall within
`[4,6]`, `[25,30]`, `[25,30]` minutes and the found state is published
exactly once. -/
theorem C5_amended (r1 r2 r3 r4 : Nat) :
    (updateLoop true false UpdateState.UpdateStateUnknown
        [(CheckOutcome.errOut, r1), (CheckOutcome.errOut, r2),
         (CheckOutcome.errOut, r3), (CheckOutcome.found, r4)]).1 =
      [SchedEvent.check CheckOutcome.errOut,
       SchedEvent.sleep (jitterSleep r1 (4 * minute) (6 * minute)),
       SchedEvent.check CheckOutcome.errOut,
       SchedEvent.sleep (jitterSleep r2 (25 * minute) (30 * minute)),
       SchedEvent.check CheckOutcome.errOut,
       SchedEvent.sleep (jitterSleep r3 (25 * minute) (30 * minute)),
       SchedEvent.check CheckOutcome.found,
       SchedEvent.publish UpdateState.UpdateStateFoundUpdate] ∧
    4 * minute ≤ jitterSleep r1 (4 * minute) (6 * minute) ∧
    jitterSleep r1 (4 * minute) (6 * minute) ≤ 6 * minute ∧
    25 * minute ≤ jitterSleep r2 (25 * minute) (30 * minute) ∧
    jitterSleep r2 (25 * minute) (30 * minute) ≤ 30 * minute ∧
    25 * minute ≤ jitterSleep r3 (25 * minute) (30 * minute) ∧
    jitterSleep r3 (25 * minute) (30 * minute) ≤ 30 * minute ∧
    ((updateLoop true false UpdateState.UpdateStateUnknown
        [(CheckOutcome.errOut, r1), (CheckOutcome.errOut, r2),
         (CheckOutcome.errOut, r3), (CheckOutcome.found, r4)]).1.countP
      SchedEvent.isPublish) = 1 := by
  refine ⟨rfl, jitterSleep_ge r1 _ _, jitterSleep_le r1 _ _ (by decide),
    jitterSleep_ge r2 _ _, jitterSleep_le r2 _ _ (by decide),
    jitterSleep_ge r3 _ _, jitterSleep_le r3 _ _ (by decide), ?_⟩
  simp [updateLoop, List.countP_cons, SchedEvent.isPublish]

/-- Claim C6, as stated, is false: after a found update is published the
loop does not sleep — it immediately performs the next check (event index
2 is a check, not a sleep); the ~1-hour sleep only happens on the
following, already-notified iterations. -/
theorem C6_counterexample :
    (updateLoop true false UpdateState.UpdateStateUnknown
        [(CheckOutcome.found, 0), (CheckOutcome.noUpdate, 0)]).1 =
      [SchedEvent.check CheckOutcome.found,
       SchedEvent.publish UpdateState.UpdateStateFoundUpdate,
       SchedEvent.check CheckOutcome.noUpdate,
       SchedEvent.sleep (57 * minute)] ∧
    (updateLoop true false UpdateState.UpdateStateUnknown
        [(CheckOutcome.found, 0), (CheckOutcome.noUpdate, 0)]).1[2]? =
      some (SchedEvent.check CheckOutcome.noUpdate) := by decide

/-- Claim C6 amended: on a found update with no prior notification the
scheduler sets the state to `UpdateStateFoundUpdate`, publishes exactly
one notification, marks itself notified and immediately performs the next
check with no intervening sleep; every subsequent already-notified
iteration sleeps one hour ±3 minutes of jitter after its check, and no
second notification is ever published once notified. -/
theorem C6_amended (r1 r2 : Nat) :
    (updateLoop true false UpdateState.UpdateStateUnknown
        [(CheckOutcome.found, r1), (CheckOutcome.noUpdate, r2)]).1 =
      [SchedEvent.check CheckOutcome.found,
       SchedEvent.publish UpdateState.UpdateStateFoundUpdate,
       SchedEvent.check CheckOutcome.noUpdate,
       SchedEvent.sleep (jitterSleep r2 (hour - 3 * minute) (hour + 3 * minute))] ∧
    (updateLoop true false UpdateState.UpdateStateUnknown
        [(CheckOutcome.found, r1), (CheckOutcome.noUpdate, r2)]).2 =
      UpdateState.UpdateStateFoundUpdate ∧
    hour - 3 * minute ≤ jitterSleep r2 (hour - 3 * minute) (hour + 3 * minute) ∧
    jitterSleep r2 (hour - 3 * minute) (hour + 3 * minute) ≤ hour + 3 * minute ∧
    ((updateLoop true false UpdateState.UpdateStateUnknown
        [(CheckOutcome.found, r1), (CheckOutcome.noUpdate, r2)]).1.countP
      SchedEvent.isPublish) = 1 ∧
    (∀ (noErr : Bool) (st : UpdateState) (script : List (CheckOutcome × Nat)),
      ((updateLoop noErr true st script).1.countP SchedEvent.isPublish) = 0) := by
  refine ⟨rfl, rfl, jitterSleep_ge r2 _ _, jitterSleep_le r2 _ _ (by decide), ?_,
    fun noErr st script => updateLoop_notified_no_publish script noErr st⟩
  simp [updateLoop, List.countP_cons, SchedEvent.isPublish]

/-- Claim C7 confirmed: on an unofficial build without the dev-updates
override, `checkForUpdates` sets the disabled state, publishes exactly one
notification carrying it, performs no update check at all, and returns —
so updates stay disabled for the rest of the process lifetime. -/
theorem C7_unofficial_lockout (startedAtBoot : Bool) (bootRand : Nat)
    (script : List (CheckOutcome × Nat)) :
    checkForUpdates false false startedAtBoot bootRand script =
      ([SchedEvent.publish UpdateState.UpdateStateUpdatesDisabledUnofficialBuild],
        UpdateState.UpdateStateUpdatesDisabledUnofficialBuild) ∧
    ((checkForUpdates false false startedAtBoot bootRand script).1.countP
      SchedEvent.isPublish) = 1 ∧
    ((checkForUpdates false false startedAtBoot bootRand script).1.countP
      SchedEvent.isCheck) = 0 := by
  refine ⟨rfl, ?_, ?_⟩ <;> rfl

/-- Claim C2, as stated, is false: a successful elevated `Quit` deletes
only the calling session from the registry, so with a second registered
session the registry is not empty afterwards — and the trace shows the
removal happens after the flag's false-to-true compare-and-swap, not "no
later than" it. -/
theorem C2_counterexample :
    (elevatedSvc.Quit true gTwo).alreadyQuit = false ∧
    (elevatedSvc.Quit true gTwo).err = none ∧
    (elevatedSvc.Quit true gTwo).state.managerServices = [plainSvc] ∧
    (elevatedSvc.Quit true gTwo).trace =
      [QuitAction.casQuitFlag, QuitAction.clearOwnEvents,
       QuitAction.removeSelfFromRegistry, QuitAction.sendQuitSignal] := by decide

/-- Claim C2 amended: a successful elevated `Quit` flips the quit flag
first and then removes only itself from the registry (clearing its own
event handle) and sends one shutdown signal; every other session stays in
the registry unchanged, so the registry need not be empty and no removal
precedes the flag's transition. -/
theorem C2_amended (s : ManagerService) (b : Bool) (g : Globals)
    (hs : s.elevatedToken ≠ 0) (hq : g.haveQuit = 0) :
    (s.Quit b g).alreadyQuit = false ∧
    (s.Quit b g).err = none ∧
    (s.Quit b g).state.haveQuit = 1 ∧
    (∀ t ∈ (s.Quit b g).state.managerServices, t.id ≠ s.id) ∧
    (∀ t ∈ g.managerServices, t.id ≠ s.id →
      t ∈ (s.Quit b g).state.managerServices) ∧
    (s.Quit b g).trace =
      [QuitAction.casQuitFlag, QuitAction.clearOwnEvents,
       QuitAction.removeSelfFromRegistry, QuitAction.sendQuitSignal] ∧
    (s.Quit b g).state.quitSignals = g.quitSignals + 1 := by
  have hq' : ¬ g.haveQuit ≠ 0 := by omega
  refine ⟨by simp [ManagerService.Quit, hs, hq'], by simp [ManagerService.Quit, hs, hq'],
    by simp [ManagerService.Quit, hs, hq'], ?_, ?_,
    by simp [ManagerService.Quit, hs, hq'], by simp [ManagerService.Quit, hs, hq']⟩
  · intro t ht
    simp [ManagerService.Quit, hs, hq', List.mem_filter] at ht
    exact ht.2
  · intro t ht hne
    simp [ManagerService.Quit, hs, hq', List.mem_filter, List.mem_map]
    exact ⟨⟨t, ht, by simp [hne]⟩, hne⟩

/-- Claim C2 witness: the amended statement at a concrete two-session
registry with the flag down. -/
theorem C2_witness :
    elevatedSvc.elevatedToken ≠ 0 ∧ gTwo.haveQuit = 0 ∧
    ((elevatedSvc.Quit true gTwo).alreadyQuit = false ∧
      (elevatedSvc.Quit true gTwo).err = none ∧
      (elevatedSvc.Quit true gTwo).state.haveQuit = 1 ∧
      (∀ t ∈ (elevatedSvc.Quit true gTwo).state.managerServices,
        t.id ≠ elevatedSvc.id) ∧
      (∀ t ∈ gTwo.managerServices, t.id ≠ elevatedSvc.id →
        t ∈ (elevatedSvc.Quit true gTwo).state.managerServices) ∧
      (elevatedSvc.Quit true gTwo).trace =
        [QuitAction.casQuitFlag, QuitAction.clearOwnEvents,
         QuitAction.removeSelfFromRegistry, QuitAction.sendQuitSignal] ∧
      (elevatedSvc.Quit true gTwo).state.quitSignals = gTwo.quitSignals + 1) :=
  ⟨by decide, by decide, C2_amended elevatedSvc true gTwo (by decide) (by decide)⟩

/-- Claim C3 confirmed (sequentialised; the compare-and-swap makes the
concurrent case linearise to this): starting with the flag down, a
sequence of elevated `Quit` calls yields `alreadyQuit=false` for exactly
the first call and `(true, nil)` for every later one, and the state stops
changing after the first call. -/
theorem C3_quit_idempotent (s : ManagerService) (b : Bool)
    (rest : List (ManagerService × Bool)) (g : Globals)
    (hs : s.elevatedToken ≠ 0) (helev : ∀ c ∈ rest, c.1.elevatedToken ≠ 0)
    (hq : g.haveQuit = 0) :
    (runQuits ((s, b) :: rest) g).1 =
      (false, none) :: List.replicate rest.length (true, none) ∧
    (runQuits ((s, b) :: rest) g).2 = (s.Quit b g).state ∧
    ((runQuits ((s, b) :: rest) g).1.countP fun x => x.1 == false) = 1 := by
  have hq' : ¬ g.haveQuit ≠ 0 := by omega
  have hstate : (s.Quit b g).state.haveQuit ≠ 0 := by
    simp [ManagerService.Quit, hs, hq']
  have hfirst : (s.Quit b g).alreadyQuit = false ∧ (s.Quit b g).err = none := by
    simp [ManagerService.Quit, hs, hq']
  have hrest := runQuits_alreadyQuit rest (s.Quit b g).state hstate helev
  have hrun : runQuits ((s, b) :: rest) g =
      (((s.Quit b g).alreadyQuit, (s.Quit b g).err) ::
        List.replicate rest.length (true, none), (s.Quit b g).state) := by
    simp [runQuits, hrest]
  refine ⟨?_, ?_, ?_⟩
  · rw [hrun, hfirst.1, hfirst.2]
  · rw [hrun]
  · rw [hrun, hfirst.1, hfirst.2]
    simp [List.countP_cons, countP_replicate_false rest.length]

/-- Claim C3 witness: two sequential elevated quits on a fresh state — one
`false`, then `(true, nil)` with no further state change. -/
theorem C3_witness :
    elevatedSvc.elevatedToken ≠ 0 ∧
    (∀ c ∈ [((⟨3, some 12, 9⟩ : ManagerService), false)], c.1.elevatedToken ≠ 0) ∧
    gTwo.haveQuit = 0 ∧
    ((runQuits [(elevatedSvc, true), (⟨3, some 12, 9⟩, false)] gTwo).1 =
        (false, none) :: List.replicate 1 (true, none) ∧
      (runQuits [(elevatedSvc, true), (⟨3, some 12, 9⟩, false)] gTwo).2 =
        (elevatedSvc.Quit true gTwo).state ∧
      ((runQuits [(elevatedSvc, true), (⟨3, some 12, 9⟩, false)] gTwo).1.countP
        fun x => x.1 == false) = 1) :=
  ⟨by decide, by decide, by decide,
    C3_quit_idempotent elevatedSvc true [(⟨3, some 12, 9⟩, false)] gTwo
      (by decide) (by decide) (by decide)⟩

/-- Claim C4 confirmed: `Quit` from a session with a zero elevated token
returns `windows.ERROR_ACCESS_DENIED`, performs no action and leaves the
whole state — flag, registry, event handles, shutdown signal — exactly as
it was. -/
theorem C4_unprivileged_quit_denied (s : ManagerService) (b : Bool)
    (g : Globals) (h : s.elevatedToken = 0) :
    s.Quit b g = ⟨false, some QuitErr.accessDenied, [], g⟩ := by
  simp [ManagerService.Quit, h]

/-- Claim C4 witness: the unprivileged fixture session is denied and the
state is untouched. -/
theorem C4_witness :
    plainSvc.elevatedToken = 0 ∧
    plainSvc.Quit true gTwo = ⟨false, some QuitErr.accessDenied, [], gTwo⟩ :=
  ⟨by decide, C4_unprivileged_quit_denied plainSvc true gTwo (by decide)⟩

/-- Per-method response discipline of the dispatch loop: Quit and
UpdateState requests yield exactly one response or close the connection;
Update requests yield no response and leave the loop running; unknown
tags close the connection. -/
theorem serveConn_steps (s : ManagerService) :
    ∀ (input : List WireIn) (g : Globals) (ws : List Bool),
      ∀ step ∈ (ServeConn s g input ws).1,
        ((step.method = MethodType.QuitMethodType ∨
          step.method = MethodType.UpdateStateMethodType) →
          (step.responses = 1 ∧ step.closed = false) ∨
          (step.responses = 0 ∧ step.closed = true)) ∧
        (step.method = MethodType.UpdateMethodType →
          step.responses = 0 ∧ step.closed = false) ∧
        (step.method = MethodType.UnknownMethodType →
          step.responses = 0 ∧ step.closed = true)
  | [], g, ws => by simp [ServeConn]
  | WireIn.boolVal b :: rest, g, ws => by simp [ServeConn]
  | WireIn.tag MethodType.QuitMethodType :: WireIn.boolVal b :: rest, g, ws => by
    intro step hstep
    simp only [ServeConn] at hstep
    by_cases h1 : (takeW ws).1 = true
    · rw [if_pos h1] at hstep
      by_cases h2 : (takeW (takeW ws).2).1 = true
      · rw [if_pos h2] at hstep
        rcases List.mem_cons.mp hstep with h | h
        · subst h; decide
        · exact serveConn_steps s rest (s.Quit b g).state (takeW (takeW ws).2).2 step h
      · rw [if_neg h2] at hstep
        rcases List.mem_singleton.mp hstep with h
        subst h; decide
    · rw [if_neg h1] at hstep
      rcases List.mem_singleton.mp hstep with h
      subst h; decide
  | WireIn.tag MethodType.QuitMethodType :: WireIn.tag m :: rest, g, ws => by
    intro step hstep
    simp only [ServeConn] at hstep
    rcases List.mem_singleton.mp hstep with h
    subst h; decide
  | [WireIn.tag MethodType.QuitMethodType], g, ws => by
    intro step hstep
    simp only [ServeConn] at hstep
    rcases List.mem_singleton.mp hstep with h
    subst h; decide
  | WireIn.tag MethodType.UpdateStateMethodType :: rest, g, ws => by
    intro step hstep
    simp only [ServeConn] at hstep
    by_cases h1 : (takeW ws).1 = true
    · rw [if_pos h1] at hstep
      rcases List.mem_cons.mp hstep with h | h
      · subst h; decide
      · exact serveConn_steps s rest g (takeW ws).2 step h
    · rw [if_neg h1] at hstep
      rcases List.mem_singleton.mp hstep with h
      subst h; decide
  | WireIn.tag MethodType.UpdateMethodType :: rest, g, ws => by
    intro step hstep
    simp only [ServeConn] at hstep
    rcases List.mem_cons.mp hstep with h | h
    · subst h; decide
    · exact serveConn_steps s rest g ws step h
  | WireIn.tag MethodType.UnknownMethodType :: rest, g, ws => by
    intro step hstep
    simp only [ServeConn] at hstep
    rcases List.mem_singleton.mp hstep with h
    subst h; decide

/-- Claim C1, as stated, is false: a decoded `TriggerUpdate`
(`UpdateMethodType`) request is handled with neither outcome — no
response is encoded for it and the dispatch loop keeps running. -/
theorem C1_counterexample :
    ¬ ∀ step ∈ (ServeConn elevatedSvc gTwo
        [WireIn.tag MethodType.UpdateMethodType] []).1,
      step.responses = 1 ∨ step.closed = true := by decide

/-- Claim C1 amended: every decoded Quit or QueryUpdateState request
either receives exactly one response (and the loop continues) or the
connection closes with no response; a decoded TriggerUpdate request never
receives a response and never closes the connection by itself; an
unrecognised method tag closes the connection with no response. -/
theorem C1_amended (s : ManagerService) (g : Globals) (input : List WireIn)
    (ws : List Bool) :
    ∀ step ∈ (ServeConn s g input ws).1,
      ((step.method = MethodType.QuitMethodType ∨
        step.method = MethodType.UpdateStateMethodType) →
        (step.responses = 1 ∧ step.closed = false) ∨
        (step.responses = 0 ∧ step.closed = true)) ∧
      (step.method = MethodType.UpdateMethodType →
        step.responses = 0 ∧ step.closed = false) ∧
      (step.method = MethodType.UnknownMethodType →
        step.responses = 0 ∧ step.closed = true) :=
  serveConn_steps s input g ws

/-- Claim C1 witness: the amended statement at a concrete one-request
stream whose step is a responded QueryUpdateState. -/
theorem C1_witness :
    (⟨MethodType.UpdateStateMethodType, 1, false⟩ : ServeStep) ∈
      (ServeConn elevatedSvc gTwo
        [WireIn.tag MethodType.UpdateStateMethodType] []).1 ∧
    (((MethodType.UpdateStateMethodType = MethodType.QuitMethodType ∨
      MethodType.UpdateStateMethodType = MethodType.UpdateStateMethodType) →
      ((1 : Nat) = 1 ∧ false = false) ∨ ((1 : Nat) = 0 ∧ false = true)) ∧
    (MethodType.UpdateStateMethodType = MethodType.UpdateMethodType →
      (1 : Nat) = 0 ∧ false = false) ∧
    (MethodType.UpdateStateMethodType = MethodType.UnknownMethodType →
      (1 : Nat) = 0 ∧ false = true)) :=
  ⟨by decide, C1_amended elevatedSvc gTwo
    [WireIn.tag MethodType.UpdateStateMethodType] []
    ⟨MethodType.UpdateStateMethodType, 1, false⟩ (by decide)⟩

/-- Claim C8 confirmed: an `adminOnly` broadcast attempts delivery only to
sessions with a nonzero elevated token; every zero-token session is
skipped, and every elevated session with an open event handle is
delivered to. -/
theorem C8_admin_only_filter (registry : List ManagerService)
    (nt : NotificationType) :
    (∀ m ∈ notifyAll registry nt true, m.elevatedToken ≠ 0) ∧
    (∀ m ∈ registry, m.elevatedToken = 0 → m ∉ notifyAll registry nt true) ∧
    (∀ m ∈ registry, m.elevatedToken ≠ 0 → m.events.isSome = true →
      m ∈ notifyAll registry nt true) := by
  unfold notifyAll
  by_cases h : registry.length = 0
  · have hnil : registry = [] := List.eq_nil_of_length_eq_zero h
    subst hnil
    simp
  · rw [if_neg h]
    refine ⟨?_, ?_, ?_⟩
    · intro m hm
      have := (List.mem_filter.mp hm).2
      simp at this
      exact this.1
    · intro m _ h0 hmem
      have := (List.mem_filter.mp hmem).2
      simp [h0] at this
    · intro m hm hne hsome
      exact List.mem_filter.mpr ⟨hm, by simp [hne, hsome]⟩

/-- Claim C8 witness: in the mixed fixture registry, the unprivileged
session is skipped by an admin-only broadcast. -/
theorem C8_witness :
    plainSvc ∈ [elevatedSvc, plainSvc] ∧ plainSvc.elevatedToken = 0 ∧
    plainSvc ∉ notifyAll [elevatedSvc, plainSvc]
      NotificationType.UpdateProgressNotificationType true :=
  ⟨by decide, by decide,
    (C8_admin_only_filter [elevatedSvc, plainSvc]
        NotificationType.UpdateProgressNotificationType).2.1 plainSvc
      (by decide) (by decide)⟩

/-- Claim C10 confirmed: `IPCServerNotifyUpdateProgress` broadcasts with
`adminOnly = true`, so a zero-token session never receives an
UpdateProgress event, while `IPCServerNotifyUpdateFound` and
`IPCServerNotifyManagerStopping` broadcast with `adminOnly = false` and
reach every registered session with an open event handle regardless of
privilege. -/
theorem C10_notification_privilege_scope (registry : List ManagerService)
    (st : UpdateState) (dp : DownloadProgress) :
    (∀ m, m.elevatedToken = 0 →
      m ∉ IPCServerNotifyUpdateProgress registry dp) ∧
    (∀ m ∈ registry, m.events.isSome = true →
      m ∈ IPCServerNotifyUpdateFound registry st ∧
      m ∈ IPCServerNotifyManagerStopping registry) := by
  unfold IPCServerNotifyUpdateProgress IPCServerNotifyUpdateFound
    IPCServerNotifyManagerStopping notifyAll
  by_cases h : registry.length = 0
  · have hnil : registry = [] := List.eq_nil_of_length_eq_zero h
    subst hnil
    simp
  · simp only [if_neg h]
    refine ⟨?_, ?_⟩
    · intro m h0 hmem
      have := (List.mem_filter.mp hmem).2
      simp [h0] at this
    · intro m hm hsome
      exact ⟨List.mem_filter.mpr ⟨hm, by simp [hsome]⟩,
        List.mem_filter.mpr ⟨hm, by simp [hsome]⟩⟩

/-- Claim C10 witness: in the mixed fixture registry the unprivileged
session misses the UpdateProgress broadcast but receives UpdateFound and
ManagerStopping. -/
theorem C10_witness :
    plainSvc.elevatedToken = 0 ∧
    plainSvc ∉ IPCServerNotifyUpdateProgress [elevatedSvc, plainSvc] dpSample ∧
    plainSvc ∈ [elevatedSvc, plainSvc] ∧ plainSvc.events.isSome = true ∧
    plainSvc ∈ IPCServerNotifyUpdateFound [elevatedSvc, plainSvc]
      UpdateState.UpdateStateFoundUpdate ∧
    plainSvc ∈ IPCServerNotifyManagerStopping [elevatedSvc, plainSvc] :=
  ⟨by decide,
    (C10_notification_privilege_scope [elevatedSvc, plainSvc]
        UpdateState.UpdateStateFoundUpdate dpSample).1 plainSvc (by decide),
    by decide, by decide,
    ((C10_notification_privilege_scope [elevatedSvc, plainSvc]
        UpdateState.UpdateStateFoundUpdate dpSample).2 plainSvc
      (by decide) (by decide)).1,
    ((C10_notification_privilege_scope [elevatedSvc, plainSvc]
        UpdateState.UpdateStateFoundUpdate dpSample).2 plainSvc
      (by decide) (by decide)).2⟩

end Pangolin
